import Mathlib

/-!
Verification of the pycent Centrifugo HTTP API client against its
natural-language specification.

The development shallowly embeds the two client stacks found in the sources:

* the blocking client of cent/core.py (httpx-based): header preparation,
  the send / _send_one envelope handling, and the typed facade methods
  presence_stats and history;
* the newer stack of cent/client: pydantic-style method descriptors
  (cent/client/client.py, cent/methods/subscribe.py) serialized with
  model_dump(exclude_none=True), and the aiohttp session
  (cent/client/session/aiohttp.py, base_async.py) with its lazy session
  lifecycle, header injection, timeout fallback and response decoding.

HTTP itself is abstracted: a transport call is modelled by the request data
it would emit and by a function of the response it would receive. Python
exceptions are modelled with Except; Python dicts with association lists or
with functions to Option.
-/

/-- JSON values, as produced by resp.json() or serialized into a request
body. Objects keep field order; lookup takes the first occurrence. -/
inductive Json where
  | null : Json
  | bool (b : Bool) : Json
  | num (n : Int) : Json
  | str (s : String) : Json
  | arr (xs : List Json) : Json
  | obj (fields : List (String × Json)) : Json
deriving Repr

/-- Lookup of a key among the fields of an object, first occurrence. -/
def lookupField : List (String × Json) → String → Option Json
  | [], _ => none
  | (k1, v) :: rest, k => if k1 = k then some v else lookupField rest k

/-- The value under key k of a JSON object (Python d[k] / d.get(k)); none on
non-objects and absent keys. -/
def Json.getKey? : Json → String → Option Json
  | .obj fields, k => lookupField fields k
  | _, _ => none

/-- Python `k in d`. -/
def Json.hasKey (j : Json) (k : String) : Bool :=
  (j.getKey? k).isSome

/-- The exceptions the library raises, one constructor per exception class
used by the sources: RequestException and ResponseError (cent/core.py),
pydantic ValidationError on descriptor construction, Python KeyError on a
missing result key, and the JSON decode error of resp.json(). -/
inductive CentError where
  | requestException (msg : String) : CentError
  | responseError (err : Json) : CentError
  | validationError (missing : List String) : CentError
  | keyError (k : String) : CentError
  | decodeError : CentError
deriving Repr

/-- An HTTP response as the client sees it: status code and body. The body
is none when resp.json() would fail to decode it. -/
structure HttpResponse where
  status_code : Nat
  body : Option Json
deriving Repr

/-- Header mappings (Python dict-like); assignment overwrites. -/
def Headers : Type := String → Option String

/-- Python headers[k] = v. -/
def setH (h : Headers) (k v : String) : Headers :=
  fun k1 => if k1 = k then some v else h k1

namespace Client

/-- Default of the timeout parameter of Client.__init__ in cent/core.py
(timeout: int = 1). -/
def init_timeout_default : Int := 1

/-- Client._prepare_session (cent/core.py): sets the Authorization header
of the session to "apikey " plus the API key. -/
def _prepare_session (api_key : String) (headers : Headers) : Headers :=
  setH headers "Authorization" ("apikey " ++ api_key)

/-- Client.send (cent/core.py): issues the POST and checks the status code.
The HTTP exchange is abstracted by its response; on status other than 200
a RequestException carrying the status is raised, and the body is returned
untouched (never decoded here). -/
def send (resp : HttpResponse) : Except CentError HttpResponse :=
  if resp.status_code ≠ 200 then
    .error (.requestException ("wrong status code: " ++ toString resp.status_code))
  else
    .ok resp

/-- Client._send_one (cent/core.py): send, then resp.json(); raises
ResponseError(resp_json["error"]) when the key "error" is present,
otherwise returns resp_json.get("result", {}). -/
def sendOne (resp : HttpResponse) : Except CentError Json :=
  match send resp with
  | .error e => .error e
  | .ok r =>
    match r.body with
    | none => .error .decodeError
    | some resp_json =>
      match resp_json.getKey? "error" with
      | some e => .error (.responseError e)
      | none => .ok ((resp_json.getKey? "result").getD (.obj []))

/-- Client.presence_stats (cent/core.py): builds
{"num_clients": result["num_clients"], "num_users": result["num_users"]}
from the result of _send_one; Python indexing raises KeyError on a missing
key, num_clients being evaluated first. -/
def presence_stats (resp : HttpResponse) : Except CentError Json :=
  match sendOne resp with
  | .error e => .error e
  | .ok result =>
    match result.getKey? "num_clients" with
    | none => .error (.keyError "num_clients")
    | some nc =>
      match result.getKey? "num_users" with
      | none => .error (.keyError "num_users")
      | some nu => .ok (.obj [("num_clients", nc), ("num_users", nu)])

/-- Client.history (cent/core.py): builds
{"publications": result.get("publications", []), "offset":
result.get("offset", 0), "epoch": result.get("epoch", "")} from the result
of _send_one. -/
def history (resp : HttpResponse) : Except CentError Json :=
  match sendOne resp with
  | .error e => .error e
  | .ok result =>
    .ok (.obj [
      ("publications", (result.getKey? "publications").getD (.arr [])),
      ("offset", (result.getKey? "offset").getD (.num 0)),
      ("epoch", (result.getKey? "epoch").getD (.str ""))])

end Client

/-- StreamPosition (cent/types, module not among the sources). Modelled
from the spec: the history table gives since the fields offset and epoch. -/
structure StreamPosition where
  offset : Int
  epoch : String

/-- BoolValue (cent/types/bool_value.py, not among the sources): a wrapped
boolean used by ChannelOptionsOverride. -/
structure BoolValue where
  value : Bool

/-- ChannelOptionsOverride (cent/types/channel_options_override.py): five
optional BoolValue fields, all defaulting to None. -/
structure ChannelOptionsOverride where
  presence : Option BoolValue := none
  join_leave : Option BoolValue := none
  force_push_join_leave : Option BoolValue := none
  force_positioning : Option BoolValue := none
  force_recovery : Option BoolValue := none

/-- SubscribeMethod (cent/methods/subscribe.py): user and channel are
declared without defaults (required); every other field defaults to None. -/
structure SubscribeMethod where
  user : String
  channel : String
  info : Option Json := none
  b64info : Option String := none
  client : Option String := none
  session : Option String := none
  data : Option Json := none
  b64data : Option String := none
  recover_since : Option StreamPosition := none
  override : Option ChannelOptionsOverride := none

/-- Construction of a SubscribeMethod from named arguments, each Option to
model supplied or omitted. The pydantic base class CentMethod
(cent/methods/base.py) is not among the sources; per its documented
behaviour construction raises a ValidationError naming every missing
required field, requiredness being read off the declarations in
cent/methods/subscribe.py. -/
def SubscribeMethod.construct (user channel : Option String) (info : Option Json)
    (b64info client session : Option String) (data : Option Json)
    (b64data : Option String) (recover_since : Option StreamPosition)
    (override : Option ChannelOptionsOverride) : Except CentError SubscribeMethod :=
  match user, channel with
  | some u, some ch =>
    .ok { user := u, channel := ch, info := info, b64info := b64info,
          client := client, session := session, data := data, b64data := b64data,
          recover_since := recover_since, override := override }
  | _, _ => .error (.validationError
      ((if user.isNone then ["user"] else []) ++ (if channel.isNone then ["channel"] else [])))

/-- PublishMethod (cent/methods/publish.py, not among the sources; its
field list is mirrored by Client.publish in cent/client/client.py and by
the spec table: channel and data required, skip_history, tags, b64data,
idempotency_key optional with default None). The data and tags dicts are
kept as association lists. -/
structure PublishMethod where
  channel : String
  data : List (String × Json)
  skip_history : Option Bool := none
  tags : Option (List (String × String)) := none
  b64data : Option String := none
  idempotency_key : Option String := none

/-- One field of a model_dump(exclude_none=True) serialization: a key is
emitted exactly when the value is not None. -/
def optField (k : String) : Option Json → List (String × Json)
  | some v => [(k, v)]
  | none => []

/-- PublishMethod.model_dump(exclude_none=True), as make_request calls it:
fields in declaration order, every None-valued field omitted entirely. -/
def PublishMethod.model_dump (m : PublishMethod) : Json :=
  .obj ([("channel", .str m.channel), ("data", .obj m.data)]
    ++ optField "skip_history" (m.skip_history.map Json.bool)
    ++ optField "tags" (m.tags.map (fun ts => .obj (ts.map (fun p => (p.1, Json.str p.2)))))
    ++ optField "b64data" (m.b64data.map Json.str)
    ++ optField "idempotency_key" (m.idempotency_key.map Json.str))

/-- Construction of a PublishMethod from named arguments (see
SubscribeMethod.construct for the modelling of pydantic validation). -/
def PublishMethod.construct (channel : Option String) (data : Option (List (String × Json)))
    (skip_history : Option Bool) (tags : Option (List (String × String)))
    (b64data : Option String) (idempotency_key : Option String) :
    Except CentError PublishMethod :=
  match channel, data with
  | some ch, some d =>
    .ok { channel := ch, data := d, skip_history := skip_history, tags := tags,
          b64data := b64data, idempotency_key := idempotency_key }
  | _, _ => .error (.validationError
      ((if channel.isNone then ["channel"] else []) ++ (if data.isNone then ["data"] else [])))

/-- The two pieces of a CentMethod descriptor that make_request reads: the
wire name (its api method attribute) and its serialized body. -/
structure CentMethodData where
  api_method : String
  dump : Json

/-- The descriptor data of a PublishMethod: wire name publish plus its
serialization. -/
def PublishMethod.asMethod (m : PublishMethod) : CentMethodData :=
  { api_method := "publish", dump := m.model_dump }

/-- Client.publish of cent/client/client.py: constructs a PublishMethod
from the named arguments and only then hands it to the session, via
self(call) and session(client, method, timeout). The second component
lists the descriptors passed to the transport, so a validation failure
shows an empty trace (the request never reaches the network). The class is
named Client in the source; SyncClient here to keep it apart from the
cent/core.py Client. -/
def SyncClient.publish (channel : Option String) (data : Option (List (String × Json)))
    (skip_history : Option Bool) (tags : Option (List (String × String)))
    (b64data : Option String) (idempotency_key : Option String) :
    Except CentError PublishMethod × List PublishMethod :=
  match PublishMethod.construct channel data skip_history tags b64data idempotency_key with
  | .error e => (.error e, [])
  | .ok call => (.ok call, [call])

/-- DEFAULT_TIMEOUT of cent/client/session/base_async.py: 60.0 seconds. -/
def DEFAULT_TIMEOUT : ℚ := 60

/-- An aiohttp ClientSession object, abstracted to what the code observes:
an allocation identity, the closed flag and its mutable default headers. -/
structure ClientSession where
  sid : Nat
  closed : Bool
  headers : Headers

/-- User agent string set at session creation (aiohttp SERVER_SOFTWARE and
the package version abstracted into one constant). -/
def user_agent : String := "Python/aiohttp pycent"

/-- The headers _create_session passes to the ClientSession constructor. -/
def create_headers : Headers := fun k =>
  if k = "User-Agent" then some user_agent
  else if k = "Content-Type" then some "application/json"
  else if k = "X-Centrifugo-Error-Mode" then some "transport"
  else none

/-- AiohttpSession (cent/client/session/aiohttp.py): the optional
underlying ClientSession, plus the base url and default timeout the
missing BaseSession constructor stores (the spec lists base_url and a
default timeout as construction parameters). alloc is the next fresh
identity, modelling object allocation. -/
structure AiohttpSession where
  _base_url : String
  _timeout : ℚ
  _session : Option ClientSession
  alloc : Nat

/-- AiohttpSession._create_session: when self._session is None or closed,
a new ClientSession with the default headers is created and stored;
otherwise the stored session is returned unchanged. -/
def AiohttpSession._create_session (s : AiohttpSession) :
    ClientSession × AiohttpSession :=
  match s._session with
  | some cs =>
    if cs.closed then
      (⟨s.alloc, false, create_headers⟩,
       { s with _session := some ⟨s.alloc, false, create_headers⟩, alloc := s.alloc + 1 })
    else (cs, s)
  | none =>
    (⟨s.alloc, false, create_headers⟩,
     { s with _session := some ⟨s.alloc, false, create_headers⟩, alloc := s.alloc + 1 })

/-- AiohttpSession.close: closes the stored session when one exists and is
not already closed; otherwise does nothing. -/
def AiohttpSession.close (s : AiohttpSession) : AiohttpSession :=
  match s._session with
  | some cs =>
    if cs.closed then s else { s with _session := some { cs with closed := true } }
  | none => s

/-- Python truthiness of the expression timeout or self._timeout
(aiohttp.py line 57): None and 0 are falsy and fall back to the session
default. -/
def timeout_or (timeout : Option ℚ) (d : ℚ) : ℚ :=
  match timeout with
  | none => d
  | some t => if t = 0 then d else t

/-- The HTTP POST an AiohttpSession.make_request call issues: headers of
the session used, the url, the serialized json body and the timeout. -/
structure HttpRequest where
  headers : Headers
  url : String
  json_data : Json
  timeout : ℚ

/-- The request-building half of AiohttpSession.make_request
(cent/client/session/aiohttp.py lines 40-57): obtains a session via
_create_session, sets its X-API-Key header to the client api key,
serializes the method with model_dump(exclude_none=True), builds the url
from the base url and the wire name, and posts with the given timeout or
the session default. Returns the request together with the updated
session state. -/
def AiohttpSession.make_request (s : AiohttpSession) (api_key : String)
    (m : CentMethodData) (timeout : Option ℚ) : HttpRequest × AiohttpSession :=
  match s._create_session with
  | (sess, s1) =>
    let sess1 : ClientSession := { sess with headers := setH sess.headers "X-API-Key" api_key }
    ({ headers := sess1.headers,
       url := s._base_url ++ "/" ++ m.api_method,
       json_data := m.dump,
       timeout := timeout_or timeout s._timeout },
     { s1 with _session := some sess1 })

/-- The generic response object of the new stack: the result and error
fields of the decoded envelope. -/
structure CentResponse where
  result : Option Json
  error : Option Json

/-- Modelled from the spec: BaseSession.check_response
(cent/client/session/base.py) is not among the sources. Per the spec the
transport raises a TransportError carrying the status code on HTTP status
other than 200, and otherwise decodes the body into the generic
result/error envelope. A body that is not JSON fails to decode. -/
def check_response (status_code : Nat) (content : Option Json) :
    Except CentError CentResponse :=
  if status_code ≠ 200 then
    .error (.requestException ("wrong status code: " ++ toString status_code))
  else
    match content with
    | none => .error .decodeError
    | some j => .ok { result := j.getKey? "result", error := j.getKey? "error" }

/-- The decoding tail of AiohttpSession.make_request
(cent/client/session/aiohttp.py lines 58-64): the response body goes
through check_response and the result field of the returned response
object is what the session hands back to the calling facade. -/
def AiohttpSession.make_request_response (status_code : Nat) (content : Option Json) :
    Except CentError (Option Json) :=
  (check_response status_code content).map CentResponse.result

/-- C1: a 200 response whose envelope populates the error field with code c
and message m makes _send_one raise ResponseError carrying exactly that
code and message, the typed facade (presence_stats) propagates the raise,
and no result value is ever returned for such an envelope. -/
theorem c1_error_envelope_raises (c : Int) (m : String) (rest : List (String × Json)) :
    Client.sendOne ⟨200, some (.obj (("error", .obj [("code", .num c), ("message", .str m)]) :: rest))⟩
      = .error (.responseError (.obj [("code", .num c), ("message", .str m)]))
    ∧ Client.presence_stats ⟨200, some (.obj (("error", .obj [("code", .num c), ("message", .str m)]) :: rest))⟩
      = .error (.responseError (.obj [("code", .num c), ("message", .str m)]))
    ∧ ∀ r, Client.sendOne ⟨200, some (.obj (("error", .obj [("code", .num c), ("message", .str m)]) :: rest))⟩ ≠ .ok r := by
  refine ⟨?_, ?_, ?_⟩ <;>
    simp [Client.sendOne, Client.presence_stats, Client.send, Json.getKey?, lookupField]

/-- C1 witness at concrete code 1 and message m. -/
theorem c1_witness :
    Client.sendOne ⟨200, some (.obj [("error", .obj [("code", .num 1), ("message", .str "m")])])⟩
      = .error (.responseError (.obj [("code", .num 1), ("message", .str "m")])) :=
  (c1_error_envelope_raises 1 "m" []).1

/-- C9: in the blocking client a decoded 200 body with an error key raises
ResponseError even when result is present too (in either order); without
an error key the value under result is returned, defaulting to an empty
object when the result key is absent. -/
theorem c9_error_precedence :
    (∀ e r : Json, Client.sendOne ⟨200, some (.obj [("error", e), ("result", r)])⟩
        = .error (.responseError e))
    ∧ (∀ e r : Json, Client.sendOne ⟨200, some (.obj [("result", r), ("error", e)])⟩
        = .error (.responseError e))
    ∧ (∀ r : Json, Client.sendOne ⟨200, some (.obj [("result", r)])⟩ = .ok r)
    ∧ Client.sendOne ⟨200, some (.obj [])⟩ = .ok (.obj []) := by
  refine ⟨?_, ?_, ?_, ?_⟩ <;> intros <;>
    simp [Client.sendOne, Client.send, Json.getKey?, lookupField]

/-- C3: a response with status other than 200 raises RequestException
carrying the status code; the body is never decoded, so _send_one fails
the same way even when the body is not valid JSON. -/
theorem c3_non_200_transport_error (s : Nat) (b : Option Json) (h : s ≠ 200) :
    Client.send ⟨s, b⟩ = .error (.requestException ("wrong status code: " ++ toString s))
    ∧ Client.sendOne ⟨s, b⟩ = .error (.requestException ("wrong status code: " ++ toString s)) := by
  constructor
  · simp [Client.send, h]
  · simp [Client.sendOne, Client.send, h]

/-- C3 witness at status 500 with an undecodable body. -/
theorem c3_witness :
    (500 : Nat) ≠ 200
    ∧ Client.send ⟨500, none⟩
        = .error (.requestException ("wrong status code: " ++ toString (500 : Nat)))
    ∧ Client.sendOne ⟨500, none⟩
        = .error (.requestException ("wrong status code: " ++ toString (500 : Nat))) :=
  ⟨by decide, (c3_non_200_transport_error 500 none (by decide)).1,
    (c3_non_200_transport_error 500 none (by decide)).2⟩

/-- C4: a 200 result envelope decodes into the typed result exactly from
the JSON: presence_stats on num_clients 3 and num_users 2 returns exactly
those two fields, extra result fields are not leaked, and history projects
publications, offset and epoch from the JSON. -/
theorem c4_result_decoding :
    Client.presence_stats
        ⟨200, some (.obj [("result", .obj [("num_clients", .num 3), ("num_users", .num 2)])])⟩
      = .ok (.obj [("num_clients", .num 3), ("num_users", .num 2)])
    ∧ (∀ (nc nu : Json) (extra : List (String × Json)),
        Client.presence_stats
            ⟨200, some (.obj [("result", .obj (("num_clients", nc) :: ("num_users", nu) :: extra))])⟩
          = .ok (.obj [("num_clients", nc), ("num_users", nu)]))
    ∧ (∀ pubs off ep : Json,
        Client.history
            ⟨200, some (.obj [("result", .obj [("publications", pubs), ("offset", off), ("epoch", ep)])])⟩
          = .ok (.obj [("publications", pubs), ("offset", off), ("epoch", ep)])) := by
  refine ⟨?_, ?_, ?_⟩ <;> intros <;>
    simp [Client.presence_stats, Client.history, Client.sendOne, Client.send,
      Json.getKey?, lookupField]

/-- C2: the body make_request posts is exactly the
model_dump(exclude_none=True) serialization of the descriptor: an optional
field left unset contributes no key at all, a field set to a non-None
value (False included) appears with that value, required fields always
appear, and hence no optional key is ever null-valued. -/
theorem c2_unset_optional_fields_omitted (m : PublishMethod) (st : AiohttpSession)
    (k : String) (t : Option ℚ) :
    (st.make_request k m.asMethod t).1.json_data = m.model_dump
    ∧ m.model_dump.getKey? "channel" = some (.str m.channel)
    ∧ m.model_dump.getKey? "data" = some (.obj m.data)
    ∧ m.model_dump.getKey? "skip_history" = m.skip_history.map Json.bool
    ∧ m.model_dump.getKey? "tags"
        = m.tags.map (fun ts => .obj (ts.map (fun p => (p.1, Json.str p.2))))
    ∧ m.model_dump.getKey? "b64data" = m.b64data.map Json.str
    ∧ m.model_dump.getKey? "idempotency_key" = m.idempotency_key.map Json.str := by
  constructor
  · obtain ⟨u, ti, so, al⟩ := st
    cases so with
    | none => rfl
    | some cs =>
      obtain ⟨sid, cl, hd⟩ := cs
      cases cl <;> rfl
  · obtain ⟨ch, d, sh, tg, b6, ik⟩ := m
    refine ⟨?_, ?_, ?_, ?_, ?_, ?_⟩ <;>
      cases sh <;> cases tg <;> cases b6 <;> cases ik <;>
        simp [PublishMethod.model_dump, optField, Json.getKey?, lookupField]

/-- C5: a typed client method invoked without a required field raises a
local ValidationError (the ArgumentError of the spec taxonomy) at
descriptor construction, and the transport trace stays empty: the request
never reaches the network. Shown for publish without channel, publish
without data, and subscribe without user; a fully supplied publish passes
exactly one descriptor to the transport. -/
theorem c5_missing_required_fails_locally :
    (∀ (d : List (String × Json)) (sh : Option Bool) (tg : Option (List (String × String)))
        (b6 ik : Option String),
        SyncClient.publish none (some d) sh tg b6 ik
          = (.error (.validationError ["channel"]), []))
    ∧ (∀ (ch : String) (sh : Option Bool) (tg : Option (List (String × String)))
        (b6 ik : Option String),
        SyncClient.publish (some ch) none sh tg b6 ik
          = (.error (.validationError ["data"]), []))
    ∧ (∀ (ch : String) (info : Option Json) (b64info client session : Option String)
        (data : Option Json) (b64data : Option String) (rs : Option StreamPosition)
        (ov : Option ChannelOptionsOverride),
        SubscribeMethod.construct none (some ch) info b64info client session data b64data rs ov
          = .error (.validationError ["user"]))
    ∧ (∀ (ch : String) (d : List (String × Json)),
        SyncClient.publish (some ch) (some d) none none none none
          = (.ok ⟨ch, d, none, none, none, none⟩, [⟨ch, d, none, none, none, none⟩])) := by
  refine ⟨?_, ?_, ?_, ?_⟩ <;> intros <;> rfl

/-- C8: every request carries the configured api key in an auth header,
one scheme per implementation: the blocking core client sets the
Authorization header to the apikey scheme at session preparation, and the
aiohttp session sets X-API-Key on the session it uses for each request. -/
theorem c8_auth_header (k ak : String) (h : Headers) (st : AiohttpSession)
    (m : CentMethodData) (t : Option ℚ) :
    Client._prepare_session k h "Authorization" = some ("apikey " ++ k)
    ∧ (st.make_request ak m t).1.headers "X-API-Key" = some ak := by
  constructor
  · simp [Client._prepare_session, setH]
  · obtain ⟨u, ti, so, al⟩ := st
    cases so with
    | none => simp [AiohttpSession.make_request, AiohttpSession._create_session, setH]
    | some cs =>
      obtain ⟨sid, cl, hd⟩ := cs
      cases cl <;> simp [AiohttpSession.make_request, AiohttpSession._create_session, setH]

/-- C10: the underlying aiohttp session is created lazily and reused: a
make_request from a state with no session allocates a fresh open one;
while an open session is stored, make_request reuses it and allocates
nothing; after close, the next make_request allocates a fresh open
session and the call completes normally. -/
theorem c10_lazy_session_lifecycle (u : String) (ti : ℚ) (n : Nat) (hd : Headers)
    (k : String) (m : CentMethodData) (t : Option ℚ) :
    (((AiohttpSession.mk u ti none n).make_request k m t).2._session.map ClientSession.sid
        = some n
      ∧ ((AiohttpSession.mk u ti none n).make_request k m t).2._session.map ClientSession.closed
        = some false
      ∧ ((AiohttpSession.mk u ti none n).make_request k m t).2.alloc = n + 1)
    ∧ (((AiohttpSession.mk u ti (some ⟨n, false, hd⟩) (n + 1)).make_request k m t).2._session.map
          ClientSession.sid = some n
      ∧ ((AiohttpSession.mk u ti (some ⟨n, false, hd⟩) (n + 1)).make_request k m t).2.alloc
        = n + 1)
    ∧ (((AiohttpSession.mk u ti (some ⟨n, false, hd⟩) (n + 1)).close.make_request k m t).2._session.map
          ClientSession.sid = some (n + 1)
      ∧ ((AiohttpSession.mk u ti (some ⟨n, false, hd⟩) (n + 1)).close.make_request k m t).2._session.map
          ClientSession.closed = some false) :=
  ⟨⟨rfl, rfl, rfl⟩, ⟨rfl, rfl⟩, ⟨rfl, rfl⟩⟩

/-- C6 counterexample: on a 200 response whose body is the envelope with
result field the number 3, the value the aiohttp session hands back to the
facade is the decoded result field, not the raw envelope, refuting the
claim that the transport returns the raw envelope to the facade. -/
theorem c6_counterexample :
    AiohttpSession.make_request_response 200 (some (.obj [("result", .num 3)]))
      = .ok (some (.num 3))
    ∧ AiohttpSession.make_request_response 200 (some (.obj [("result", .num 3)]))
      ≠ .ok (some (.obj [("result", .num 3)])) := by
  constructor
  · rfl
  · simp [AiohttpSession.make_request_response, check_response, Json.getKey?, lookupField,
      Except.map]

/-- C6 amended: in the blocking core client the transport layer (send)
returns the response raw and undecoded and error interpretation lives in
_send_one; the asynchronous session instead decodes inside make_request
via check_response and returns the result field of the envelope, not the
raw envelope, to its caller. -/
theorem c6_amended (b : Option Json) (r : Json) (rest : List (String × Json)) :
    Client.send ⟨200, b⟩ = .ok ⟨200, b⟩
    ∧ AiohttpSession.make_request_response 200 (some (.obj (("result", r) :: rest)))
        = .ok (some r) := by
  constructor
  · rfl
  · simp [AiohttpSession.make_request_response, check_response, Json.getKey?, lookupField,
      Except.map]

/-- C7 counterexample: a caller-supplied per-call timeout of 0 is not the
timeout used for the request: the Python expression timeout or
self._timeout treats 0 as falsy, so the session default 60 is used
instead of the supplied 0. -/
theorem c7_counterexample :
    ((AiohttpSession.mk "u" DEFAULT_TIMEOUT none 0).make_request "k"
        (CentMethodData.mk "publish" (.obj [])) (some 0)).1.timeout ≠ 0 := by
  simp [AiohttpSession.make_request, AiohttpSession._create_session, timeout_or,
    DEFAULT_TIMEOUT]

/-- C7 amended: a supplied nonzero per-call timeout is used as given; a
supplied 0, like no timeout at all, falls back to the session default.
The async default DEFAULT_TIMEOUT is 60.0 and the blocking core client
default is 1. -/
theorem c7_amended (st : AiohttpSession) (k : String) (m : CentMethodData) (x : ℚ) :
    (st.make_request k m (some x)).1.timeout = (if x = 0 then st._timeout else x)
    ∧ (st.make_request k m none).1.timeout = st._timeout
    ∧ DEFAULT_TIMEOUT = 60
    ∧ Client.init_timeout_default = 1 := by
  obtain ⟨u, ti, so, al⟩ := st
  refine ⟨?_, ?_, rfl, rfl⟩ <;>
    (cases so with
     | none => rfl
     | some cs =>
       obtain ⟨sid, cl, hd⟩ := cs
       cases cl <;> rfl)
